import Mathlib

/-!
Verification of the authentication core of `llm-app-poc`.

Shallow embedding of the security-engine modules:
  * `src/auth/jwt_handler.py`      — JWT token service
  * `src/auth/two_factor.py`       — two-factor authentication engine
  * `src/auth/session_manager.py`  — session registry
  * `src/auth/password_reset.py`   — password reset token store
  * `src/auth/user_manager.py`     — user store (password hash commitment)
  * `src/security/rate_limiter.py` — rate limiter / lockout guard

Modelling conventions:
  * wall-clock instants (`time.time()`, `datetime.utcnow()`) are integers
    (seconds); `timedelta(minutes=m)` is `m * 60`, `timedelta(hours=h)` is
    `h * 3600`;
  * Python dictionaries become functions into `Option`; a dictionary update
    is a pointwise override;
  * cryptographic primitives that the code treats as black boxes are
    parameters of the operations: SHA-256 hashing is an arbitrary
    `String → String`, the random values produced by `secrets` are explicit
    arguments, and pyotp's TOTP check is an arbitrary
    `String → String → Bool` (secret, code — the clock is folded into it);
  * the mocked external Notifier (SMS / email dispatch) is a `Bool`
    parameter carrying its success signal;
  * stateful methods become functions `state → result × state`.
-/

namespace LlmApp

/-! ## JWT Token Service (`src/auth/jwt_handler.py`) -/

/-- `JWTConfig` from `jwt_handler.py`, with the source's defaults. -/
structure JWTConfig where
  secret_key : String
  algorithm : String := "HS256"
  access_token_expire_minutes : Int := 30
  refresh_token_expire_days : Int := 7
  issuer : String := "llm-app-saas"
  audience : String := "llm-app-api"
deriving Repr, DecidableEq

/-- `TokenClaims` from `jwt_handler.py`.  The defaults are pydantic's:
they fill fields missing from a decoded payload. -/
structure TokenClaims where
  sub : String
  tenant_id : String
  email : Option String := none
  roles : List String := []
  permissions : List String := []
  exp : Int
  iat : Int
  iss : String
  aud : String
  token_type : String := "access"
deriving Repr, DecidableEq

/-- A signed JWT.  `jwt.encode`'s HMAC signature is modelled ideally: the
signature records the signing key, the algorithm and the signed payload,
and signature verification succeeds exactly when all three match what the
verifier expects (no forgeries, no collisions). -/
structure SignedToken where
  payload : TokenClaims
  sig : String × String × TokenClaims
deriving Repr, DecidableEq

/-- `JWTHandler.create_access_token` (`extra_claims = None`, the default):
builds the claims dictionary with `exp = now + access_token_expire_minutes
* 60`, `iat = now`, `token_type = "access"`, and signs it. -/
def create_access_token (cfg : JWTConfig) (user_id tenant_id : String)
    (email : Option String) (roles permissions : List String) (now : Int) :
    SignedToken :=
  let exp := now + cfg.access_token_expire_minutes * 60
  let claims : TokenClaims :=
    { sub := user_id, tenant_id := tenant_id, email := email, roles := roles,
      permissions := permissions, exp := exp, iat := now, iss := cfg.issuer,
      aud := cfg.audience, token_type := "access" }
  { payload := claims, sig := (cfg.secret_key, cfg.algorithm, claims) }

/-- Outcomes of `jwt.decode` failures as `verify_token` propagates them:
`ExpiredSignatureError` vs. every other `InvalidTokenError`. -/
inductive JWTError where
  | expired
  | invalid
deriving Repr, DecidableEq

/-- `JWTHandler.verify_token`: `jwt.decode` checks the signature, then
expiry (PyJWT treats `exp ≤ now` as expired), then audience and issuer. -/
def verify_token (cfg : JWTConfig) (tok : SignedToken) (now : Int) :
    Except JWTError TokenClaims :=
  if tok.sig ≠ (cfg.secret_key, cfg.algorithm, tok.payload) then .error .invalid
  else if tok.payload.exp ≤ now then .error .expired
  else if tok.payload.aud ≠ cfg.audience then .error .invalid
  else if tok.payload.iss ≠ cfg.issuer then .error .invalid
  else .ok tok.payload

/-! ## Two-Factor Authentication Engine (`src/auth/two_factor.py`)

`TwoFactorManager` state is `_configs` (per-user `TwoFactorConfig`) and
`_sms_otps` (per-user outstanding `(code, expiry)`).  SHA-256
(`_hash_backup_code`) is a parameter `hash`, pyotp's check
(`_verify_totp_code`) is a parameter `totpValid`, and the random backup
codes produced by `secrets.token_hex` are supplied by a parameter `gen`
(the i-th fresh plaintext code). -/

/-- `TwoFactorConfig` from `two_factor.py` (timestamps are the ISO strings
the source stores). -/
structure TwoFactorConfig where
  user_id : String
  is_totp_enabled : Bool := false
  totp_secret : Option String := none
  totp_verified_at : Option String := none
  is_sms_enabled : Bool := false
  phone_number : Option String := none
  sms_verified_at : Option String := none
  backup_codes : List String := []
  preferred_method : Option String := none
  created_at : String := ""
  updated_at : String := ""
deriving Repr, DecidableEq

/-- `TwoFactorConfig.is_enabled`. -/
def TwoFactorConfig.is_enabled (c : TwoFactorConfig) : Bool :=
  c.is_totp_enabled || c.is_sms_enabled

/-- The mutable state of a `TwoFactorManager`. -/
structure TFState where
  configs : String → Option TwoFactorConfig
  sms_otps : String → Option (String × Int)

/-- Pointwise override of `_configs[user]`. -/
def TFState.setConfig (st : TFState) (user : String) (c : TwoFactorConfig) :
    TFState :=
  { st with configs := fun v => if v = user then some c else st.configs v }

/-- `del self._sms_otps[user_id]`. -/
def TFState.delOtp (st : TFState) (user : String) : TFState :=
  { st with sms_otps := fun v => if v = user then none else st.sms_otps v }

/-- `TwoFactorManager._generate_backup_codes`: `count` (default 10 at every
call site) fresh plaintext codes `gen 0, …, gen (count-1)`, each hashed
with `_hash_backup_code` before being stored. -/
def generate_backup_codes (hash : String → String) (gen : Nat → String)
    (count : Nat) : List String :=
  (List.range count).map (fun i => hash (gen i))

/-- `TwoFactorManager.verify_backup_code`: hash the submitted code, look it
up in the stored list, and on success remove that hash (Python
`list.remove` deletes the first occurrence). -/
def verify_backup_code (hash : String → String) (st : TFState)
    (user code nowStr : String) : Bool × TFState :=
  match st.configs user with
  | none => (false, st)
  | some cfg =>
    if cfg.backup_codes.isEmpty then (false, st)
    else
      let hashed := hash code
      if hashed ∈ cfg.backup_codes then
        (true, st.setConfig user
          { cfg with backup_codes := cfg.backup_codes.erase hashed,
                     updated_at := nowStr })
      else (false, st)

/-- `TwoFactorManager.verify_totp`: requires an enabled TOTP config with a
secret; does not mutate state. -/
def verify_totp (totpValid : String → String → Bool) (st : TFState)
    (user code : String) : Bool :=
  match st.configs user with
  | none => false
  | some cfg =>
    if cfg.is_totp_enabled then
      match cfg.totp_secret with
      | none => false
      | some secret => totpValid secret code
    else false

/-- `TwoFactorManager.verify_sms_otp`: compares against the single
outstanding OTP; an expired OTP is deleted and fails, a mismatched code
fails, a match consumes (deletes) the OTP. -/
def verify_sms_otp (st : TFState) (user code : String) (now : Int) :
    Bool × TFState :=
  match st.sms_otps user with
  | none => (false, st)
  | some (stored, expiry) =>
    if expiry < now then (false, st.delOtp user)
    else if code ≠ stored then (false, st)
    else (true, st.delOtp user)

/-- `TwoFactorManager.send_sms_otp`: stores the fresh OTP with a 5-minute
expiry, then dispatches it via the SMS provider; `smsOk` is the provider's
boolean outcome, which the method returns unchanged. -/
def send_sms_otp (st : TFState) (user phone otp : String) (now : Int)
    (smsOk : Bool) : Bool × TFState :=
  let st1 : TFState :=
    { st with sms_otps := fun v =>
        if v = user then some (otp, now + 5 * 60) else st.sms_otps v }
  (smsOk, st1)

/-- `TwoFactorManager.verify_totp_setup`: needs a config with a pending
secret; on a valid code it enables TOTP, records the verification time,
sets `preferred_method` to `"totp"` and assigns freshly generated backup
codes (both assignments are unconditional in the source). -/
def verify_totp_setup (hash : String → String)
    (totpValid : String → String → Bool) (gen : Nat → String) (st : TFState)
    (user code nowStr : String) : Bool × TFState :=
  match st.configs user with
  | none => (false, st)
  | some cfg =>
    match cfg.totp_secret with
    | none => (false, st)
    | some secret =>
      if totpValid secret code then
        (true, st.setConfig user
          { cfg with is_totp_enabled := true,
                     totp_verified_at := some nowStr,
                     preferred_method := some "totp",
                     updated_at := nowStr,
                     backup_codes := generate_backup_codes hash gen 10 })
      else (false, st)

/-- `TwoFactorManager.verify_2fa`: explicit enabled method short-circuits;
otherwise preferred method, then the other enabled method, then backup
codes, threading the state (an SMS attempt may consume the OTP). -/
def verify_2fa (hash : String → String) (totpValid : String → String → Bool)
    (st : TFState) (user code : String) (method : Option String) (now : Int)
    (nowStr : String) : Bool × TFState :=
  match st.configs user with
  | none => (false, st)
  | some cfg =>
    if !cfg.is_enabled then (false, st)
    else if method = some "totp" ∧ cfg.is_totp_enabled then
      (verify_totp totpValid st user code, st)
    else if method = some "sms" ∧ cfg.is_sms_enabled then
      verify_sms_otp st user code now
    else
      let pref :=
        if cfg.preferred_method = some "totp" ∧ cfg.is_totp_enabled then
          (verify_totp totpValid st user code, st)
        else if cfg.preferred_method = some "sms" ∧ cfg.is_sms_enabled then
          verify_sms_otp st user code now
        else (false, st)
      if pref.1 then (true, pref.2)
      else
        let o1 :=
          if cfg.is_totp_enabled ∧ cfg.preferred_method ≠ some "totp" then
            (verify_totp totpValid pref.2 user code, pref.2)
          else (false, pref.2)
        if o1.1 then (true, o1.2)
        else
          let o2 :=
            if cfg.is_sms_enabled ∧ cfg.preferred_method ≠ some "sms" then
              verify_sms_otp o1.2 user code now
            else (false, o1.2)
          if o2.1 then (true, o2.2)
          else
            let bc := verify_backup_code hash o2.2 user code nowStr
            if bc.1 then (true, bc.2) else (false, bc.2)

/-! ## Password Reset Token Store (`src/auth/password_reset.py`)

`PasswordResetManager` state is `_tokens` (token_hash → record) and
`_user_tokens` (user_id → token_hash).  `_hash_token` (SHA-256) is a
parameter `hashT`, the raw token from `secrets.token_urlsafe` is an
explicit argument, and the email provider's boolean outcome is a
parameter `emailOk`. -/

/-- `PasswordResetToken` from `password_reset.py`. -/
structure PasswordResetToken where
  token_hash : String
  user_id : String
  email : String
  created_at : Int
  expires_at : Int
  used : Bool := false
  used_at : Option Int := none
deriving Repr, DecidableEq

/-- The mutable state of a `PasswordResetManager`. -/
structure PRState where
  tokens : String → Option PasswordResetToken
  user_tokens : String → Option String

/-- `PasswordResetManager._invalidate_user_tokens`: if the user has an
indexed token hash, mark that token used and drop the index entry. -/
def invalidate_user_tokens (st : PRState) (user : String) (now : Int) :
    Bool × PRState :=
  match st.user_tokens user with
  | none => (false, st)
  | some th =>
    let st1 : PRState :=
      match st.tokens th with
      | some tok =>
        { st with tokens := fun v =>
            if v = th then some { tok with used := true, used_at := some now }
            else st.tokens v }
      | none => st
    (true, { st1 with user_tokens := fun v =>
        if v = user then none else st1.user_tokens v })

/-- `PasswordResetManager.request_password_reset`: invalidate any existing
token for the user, store the hash of the fresh raw token with a 24-hour
expiry, then dispatch the reset email; `emailOk` is the provider's
outcome, returned unchanged. -/
def request_password_reset (hashT : String → String) (st : PRState)
    (user email raw : String) (now : Int) (emailOk : Bool) : Bool × PRState :=
  let st1 := (invalidate_user_tokens st user now).2
  let th := hashT raw
  let tok : PasswordResetToken :=
    { token_hash := th, user_id := user, email := email, created_at := now,
      expires_at := now + 24 * 3600 }
  let st2 : PRState :=
    { tokens := fun v => if v = th then some tok else st1.tokens v,
      user_tokens := fun v => if v = user then some th
        else st1.user_tokens v }
  (emailOk, st2)

/-- `PasswordResetManager.validate_reset_token`: hash the raw token, look
it up; not-found, already-used and expired all yield `none`. -/
def validate_reset_token (hashT : String → String) (st : PRState)
    (raw : String) (now : Int) : Option PasswordResetToken :=
  match st.tokens (hashT raw) with
  | none => none
  | some tok =>
    if tok.used then none
    else if tok.expires_at < now then none
    else some tok

/-- `PasswordResetManager.reset_password`: validate, hash the new password
(the result is discarded by this method — the caller commits it), mark the
token used, drop the user-index entry, return the user id.  Any
validation failure returns `none` with the state untouched. -/
def reset_password (hashT : String → String) (st : PRState)
    (raw new_password : String) (pwHashFn : String → String) (now : Int) :
    Option String × PRState :=
  match validate_reset_token hashT st raw now with
  | none => (none, st)
  | some tok =>
    let _new_password_hash := pwHashFn new_password
    let th := hashT raw
    let st1 : PRState :=
      { st with tokens := fun v =>
          if v = th then some { tok with used := true, used_at := some now }
          else st.tokens v }
    let st2 : PRState :=
      if (st1.user_tokens tok.user_id).isSome then
        { st1 with user_tokens := fun v =>
            if v = tok.user_id then none else st1.user_tokens v }
      else st1
    (some tok.user_id, st2)

/-! ## User store (`src/auth/user_manager.py`) -/

/-- `User` from `user_manager.py` (timestamps are the ISO strings the
source stores). -/
structure User where
  user_id : String
  tenant_id : String
  email : String
  name : Option String := none
  given_name : Option String := none
  family_name : Option String := none
  picture : Option String := none
  password_hash : Option String := none
  oauth_provider : Option String := none
  oauth_provider_user_id : Option String := none
  roles : List String := []
  custom_permissions : List String := []
  is_active : Bool := true
  is_verified : Bool := false
  created_at : String := ""
  updated_at : String := ""
  last_login_at : Option String := none
deriving Repr, DecidableEq

/-- `UserManager.reset_password_with_token`: runs the reset-token flow and
on success commits `pwHash new_password` as the user's `password_hash`. -/
def reset_password_with_token (hashT pwHash : String → String)
    (prst : PRState) (users : String → Option User)
    (raw new_password : String) (now : Int) (nowStr : String) :
    Bool × PRState × (String → Option User) :=
  match reset_password hashT prst raw new_password pwHash now with
  | (none, st1) => (false, st1, users)
  | (some uid, st1) =>
    match users uid with
    | none => (false, st1, users)
    | some user =>
      (true, st1, fun v =>
        if v = uid then
          some { user with password_hash := some (pwHash new_password),
                           updated_at := nowStr }
        else users v)

/-! ## Session Registry (`src/auth/session_manager.py`)

`SessionManager` state is `_sessions` (session_id → `SessionInfo`) and
`_user_sessions` (user_id → list of session ids, absent keys read as the
empty list).  The cryptographically random session id from
`_generate_session_id` is an explicit argument of `create_session`. -/

/-- `SessionInfo` from `session_manager.py` (datetimes are integer
seconds). -/
structure SessionInfo where
  session_id : String
  user_id : String
  tenant_id : String
  created_at : Int
  last_activity_at : Int
  expires_at : Int
  device_type : Option String := none
  device_name : Option String := none
  os : Option String := none
  browser : Option String := none
  user_agent : Option String := none
  ip_address : Option String := none
  location : Option String := none
  is_active : Bool := true
  is_current : Bool := false
  invalidated_at : Option Int := none
  invalidation_reason : Option String := none
deriving Repr, DecidableEq

/-- `DeviceInfo` from `session_manager.py`. -/
structure DeviceInfo where
  user_agent : Option String := none
  ip_address : Option String := none
  device_type : Option String := none
  device_name : Option String := none
  os : Option String := none
  browser : Option String := none
  location : Option String := none
deriving Repr, DecidableEq

/-- The mutable state of a `SessionManager`. -/
structure SessionState where
  sessions : String → Option SessionInfo
  user_sessions : String → List String

/-- Pointwise override of `_sessions[sid]`. -/
def SessionState.setSession (st : SessionState) (sid : String)
    (s : SessionInfo) : SessionState :=
  { st with sessions := fun v => if v = sid then some s else st.sessions v }

/-- `SessionManager.invalidate_session`: idempotent — a missing or
already-inactive session returns false without state change; otherwise the
session is marked inactive with the invalidation time and reason. -/
def invalidate_session (st : SessionState) (sid reason : String)
    (now : Int) : Bool × SessionState :=
  match st.sessions sid with
  | none => (false, st)
  | some s =>
    if !s.is_active then (false, st)
    else
      (true, st.setSession sid
        { s with is_active := false, invalidated_at := some now,
                 invalidation_reason := some reason })

/-- The list built by the loop in `_enforce_session_limit`: the user's
indexed sessions that exist and are active, in index order. -/
def activeSessionsOf (st : SessionState) (user : String) :
    List SessionInfo :=
  (st.user_sessions user).filterMap (fun sid =>
    match st.sessions sid with
    | some s => if s.is_active then some s else none
    | none => none)

/-- The sort key of `sessions.sort(key=lambda s: s.last_activity_at)`. -/
def session_le (a b : SessionInfo) : Bool :=
  decide (a.last_activity_at ≤ b.last_activity_at)

/-- The active sessions sorted by last activity, ascending (Python's sort
and `List.mergeSort` are both stable). -/
def sorted_active (st : SessionState) (user : String) : List SessionInfo :=
  (activeSessionsOf st user).mergeSort session_le

/-- The first `excess_count = len(sessions) - max_sessions_per_user`
sessions of the sorted list — the ones the loop in
`_enforce_session_limit` invalidates (none when the count is below the
cap, by `Nat` truncated subtraction, matching the empty Python `range`). -/
def evicted_sessions (maxS : Nat) (st : SessionState) (user : String) :
    List SessionInfo :=
  (sorted_active st user).take ((sorted_active st user).length - maxS)

/-- `SessionManager._enforce_session_limit`: when the user's id list
exceeds `maxS`, sort the active sessions by `last_activity_at` and
invalidate the excess oldest ones with reason
`"session_limit_exceeded"`. -/
def enforce_session_limit (maxS : Nat) (st : SessionState) (user : String)
    (now : Int) : SessionState :=
  if (st.user_sessions user).length ≤ maxS then st
  else
    (evicted_sessions maxS st user).foldl
      (fun acc s =>
        (invalidate_session acc s.session_id "session_limit_exceeded"
          now).2) st

/-- The record produced by invalidating session `s` with reason
`"session_limit_exceeded"` at time `now`. -/
def inactivated (s : SessionInfo) (now : Int) : SessionInfo :=
  { s with is_active := false, invalidated_at := some now,
           invalidation_reason := some "session_limit_exceeded" }

/-- `SessionManager.create_session`: build the session (expiry `now +
session_expire_hours·3600`, device metadata if given), store it, append
its id to the user's list, then enforce the per-user limit. -/
def create_session (expireH : Int) (maxS : Nat) (st : SessionState)
    (user tenant : String) (device : Option DeviceInfo) (cur : Bool)
    (sid : String) (now : Int) : SessionInfo × SessionState :=
  let base : SessionInfo :=
    { session_id := sid, user_id := user, tenant_id := tenant,
      created_at := now, last_activity_at := now,
      expires_at := now + expireH * 3600, is_current := cur }
  let s :=
    match device with
    | none => base
    | some d =>
      { base with device_type := d.device_type,
                  device_name := d.device_name, os := d.os,
                  browser := d.browser, user_agent := d.user_agent,
                  ip_address := d.ip_address, location := d.location }
  let st1 : SessionState :=
    { sessions := fun v => if v = sid then some s else st.sessions v,
      user_sessions := fun v =>
        if v = user then st.user_sessions user ++ [sid]
        else st.user_sessions v }
  (s, enforce_session_limit maxS st1 user now)

/-! ## Rate Limiter / Lockout Guard (`src/security/rate_limiter.py`)

`RateLimiter` state is `_limits`: key `"{limit_type}:{identifier}"` →
`(attempts, first_attempt_time, blocked_until)`. -/

/-- The per-type configuration table from `RateLimiter.__init__`:
`(max_attempts, window_seconds, block_seconds)`. -/
def rl_limits : String → Option (Nat × Int × Int)
  | "login" => some (5, 900, 3600)
  | "2fa" => some (3, 300, 1800)
  | "password_reset" => some (3, 3600, 7200)
  | "otp_send" => some (5, 3600, 3600)
  | "api_call" => some (100, 60, 300)
  | _ => none

/-- The mutable `_limits` map of a `RateLimiter`. -/
structure RLState where
  limits : String → Option (Nat × Int × Option Int)

/-- Pointwise override of `_limits[key]`. -/
def RLState.setRec (st : RLState) (key : String)
    (r : Nat × Int × Option Int) : RLState :=
  ⟨fun v => if v = key then some r else st.limits v⟩

/-- `RateLimiter.check_rate_limit`.  `Except.error retry_after` models the
raised `RateLimitExceeded`; the returned state carries the mutations the
method performs before raising (record creation, block installation).
The `b ≠ 0` guard reproduces Python's `if blocked_until and now < …`
truthiness test on the stored float. -/
def check_rate_limit (st : RLState) (identifier limit_type : String)
    (now : Int) : Except Int (Bool × Int) × RLState :=
  match rl_limits limit_type with
  | none => (.ok (true, 0), st)
  | some (maxA, window, blockS) =>
    let key := limit_type ++ ":" ++ identifier
    let rec0 := (st.limits key).getD (0, now, none)
    let stA := st.setRec key rec0
    let attempts := rec0.1
    let first := rec0.2.1
    let blocked := rec0.2.2
    let blockedNow : Bool :=
      match blocked with
      | some b => decide (b ≠ 0) && decide (now < b)
      | none => false
    if blockedNow then
      (.error (blocked.getD now - now), stA)
    else
      let reset : Bool := decide (window < now - first)
      let attempts2 := if reset then 0 else attempts
      let stB := if reset then stA.setRec key (0, now, none) else stA
      let remaining : Int := (maxA : Int) - (attempts2 : Int)
      if remaining ≤ 0 then
        (.error blockS, stB.setRec key (attempts2, first, some (now + blockS)))
      else
        (.ok (true, remaining), stB)

/-- `RateLimiter.record_attempt`: a success for `login`/`2fa` resets the
record to `(0, now, None)`; otherwise the attempt count is incremented —
`first_attempt` and `blocked_until` are left untouched (there is no
window-expiry reset here). -/
def record_attempt (st : RLState) (identifier limit_type : String)
    (success : Bool) (now : Int) : Int × RLState :=
  match rl_limits limit_type with
  | none => (0, st)
  | some (maxA, _, _) =>
    let key := limit_type ++ ":" ++ identifier
    let rec0 := (st.limits key).getD (0, now, none)
    let stA := st.setRec key rec0
    if success ∧ (limit_type = "login" ∨ limit_type = "2fa") then
      ((maxA : Int), stA.setRec key (0, now, none))
    else
      let attempts := rec0.1 + 1
      ((maxA : Int) - (attempts : Int),
       stA.setRec key (attempts, rec0.2.1, rec0.2.2))

end LlmApp

namespace LlmApp

/-! ## Theorems -/

/-- C1: for every user_id `u`, tenant_id `t`, email `e`, roles `r` and
permissions `p`, `verify_token` applied to the token produced by
`create_access_token u t e r p` under the same `JWTConfig`, at any time
before the access TTL elapses, succeeds and returns claims with
`sub = u`, `tenant_id = t`, `email = e`, `roles = r`, `permissions = p`
and `token_type = "access"`. -/
theorem verify_create_access_token_roundtrip (cfg : JWTConfig)
    (u t : String) (e : Option String) (r p : List String) (now tv : Int)
    (hfresh : tv < now + cfg.access_token_expire_minutes * 60) :
    ∃ c, verify_token cfg (create_access_token cfg u t e r p now) tv = .ok c ∧
      c.sub = u ∧ c.tenant_id = t ∧ c.email = e ∧ c.roles = r ∧
      c.permissions = p ∧ c.token_type = "access" := by
  refine ⟨{ sub := u, tenant_id := t, email := e, roles := r, permissions := p,
            exp := now + cfg.access_token_expire_minutes * 60, iat := now,
            iss := cfg.issuer, aud := cfg.audience, token_type := "access" },
          ?_, rfl, rfl, rfl, rfl, rfl, rfl⟩
  simp only [verify_token, create_access_token, ne_eq, not_true_eq_false, if_false]
  rw [if_neg (by omega)]

/-- Characterization of `verify_backup_code` on a user with a config. -/
theorem verify_backup_code_eq (hash : String → String) (st : TFState)
    (user code nowStr : String) (cfg : TwoFactorConfig)
    (h : st.configs user = some cfg) :
    verify_backup_code hash st user code nowStr =
      if cfg.backup_codes.isEmpty then (false, st)
      else if hash code ∈ cfg.backup_codes then
        (true, st.setConfig user
          { cfg with backup_codes := cfg.backup_codes.erase (hash code),
                     updated_at := nowStr })
      else (false, st) := by
  simp only [verify_backup_code, h]

/-- C2: backup codes are single-use: whenever `verify_backup_code u c`
succeeds, the stored hash of `c` is removed from `u`'s config in the same
call, and a second `verify_backup_code u c` (no regeneration in between)
fails; moreover the `backup_codes` collection only ever stores values in
the image of the hash function — `verify_backup_code` preserves this and
`_generate_backup_codes` establishes it — never plaintext codes.  The
`Nodup` hypothesis is the spec's own data model (`backup_codes :
set<hash>`). -/
theorem backup_code_single_use (hash : String → String) (st : TFState)
    (u c nowStr nowStr2 : String) (cfg : TwoFactorConfig)
    (hcfg : st.configs u = some cfg) (hnodup : cfg.backup_codes.Nodup)
    (hok : (verify_backup_code hash st u c nowStr).1 = true) :
    (∃ cfg', (verify_backup_code hash st u c nowStr).2.configs u = some cfg' ∧
       cfg'.backup_codes = cfg.backup_codes.erase (hash c)) ∧
    (verify_backup_code hash (verify_backup_code hash st u c nowStr).2
        u c nowStr2).1 = false ∧
    ((∀ x ∈ cfg.backup_codes, ∃ c0, x = hash c0) →
      ∀ cfg', (verify_backup_code hash st u c nowStr).2.configs u = some cfg' →
        ∀ x ∈ cfg'.backup_codes, ∃ c0, x = hash c0) ∧
    (∀ gen count, ∀ x ∈ generate_backup_codes hash gen count,
       ∃ c0, x = hash c0) := by
  have h1 := verify_backup_code_eq hash st u c nowStr cfg hcfg
  by_cases hempty : cfg.backup_codes.isEmpty
  · rw [h1, if_pos hempty] at hok
    simp at hok
  · by_cases hmem : hash c ∈ cfg.backup_codes
    · have hst2 : (verify_backup_code hash st u c nowStr).2 =
          st.setConfig u
            { cfg with backup_codes := cfg.backup_codes.erase (hash c),
                       updated_at := nowStr } := by
        rw [h1, if_neg hempty, if_pos hmem]
      have hcfg2 : (verify_backup_code hash st u c nowStr).2.configs u =
          some { cfg with backup_codes := cfg.backup_codes.erase (hash c),
                          updated_at := nowStr } := by
        rw [hst2]; simp [TFState.setConfig]
      have hnotmem : hash c ∉ cfg.backup_codes.erase (hash c) := by
        intro hx
        exact absurd ((hnodup.mem_erase_iff).mp hx).1 (by simp)
      have h2 := verify_backup_code_eq hash _ u c nowStr2 _ hcfg2
      refine ⟨⟨_, hcfg2, rfl⟩, ?_, ?_, ?_⟩
      · rw [h2]
        by_cases he2 :
            (cfg.backup_codes.erase (hash c)).isEmpty
        · rw [if_pos he2]
        · rw [if_neg he2, if_neg hnotmem]
      · intro honly cfg' hc' x hx
        rw [hcfg2] at hc'
        cases hc'
        exact honly x (List.mem_of_mem_erase hx)
      · intro gen count x hx
        simp only [generate_backup_codes, List.mem_map] at hx
        obtain ⟨i, _, hi⟩ := hx
        exact ⟨gen i, hi.symm⟩
    · rw [h1, if_neg hempty, if_neg hmem] at hok
      simp at hok

/-- Closed instance of C2: a user with two stored backup-code hashes; the
code hashing to the first is accepted once and rejected on replay. -/
theorem backup_code_single_use_witness :
    (((fun s => String.append "#" s) : String → String) "c1" ∈
        (["#c1", "#c2"] : List String)) ∧
    (verify_backup_code (fun s => String.append "#" s)
      ⟨fun v => if v = "u1" then
          some { user_id := "u1", is_totp_enabled := true,
                 backup_codes := ["#c1", "#c2"] }
        else none, fun _ => none⟩ "u1" "c1" "T").1 = true ∧
    (verify_backup_code (fun s => String.append "#" s)
      (verify_backup_code (fun s => String.append "#" s)
        ⟨fun v => if v = "u1" then
            some { user_id := "u1", is_totp_enabled := true,
                   backup_codes := ["#c1", "#c2"] }
          else none, fun _ => none⟩ "u1" "c1" "T").2 "u1" "c1" "T2").1 =
      false := by
  have h := backup_code_single_use (fun s => String.append "#" s)
    ⟨fun v => if v = "u1" then
        some { user_id := "u1", is_totp_enabled := true,
               backup_codes := ["#c1", "#c2"] }
      else none, fun _ => none⟩ "u1" "c1" "T" "T2"
    { user_id := "u1", is_totp_enabled := true, backup_codes := ["#c1", "#c2"] }
    (by simp) (by decide) (by decide)
  exact ⟨by decide, by decide, h.2.1⟩

/-- `verify_sms_otp` never touches `_configs`. -/
theorem verify_sms_otp_configs (st : TFState) (u c : String) (now : Int) :
    ((verify_sms_otp st u c now).2).configs = st.configs := by
  unfold verify_sms_otp
  cases h : st.sms_otps u with
  | none => rfl
  | some p =>
    cases p with
    | mk stored expiry =>
      by_cases h1 : expiry < now
      · simp [h1, TFState.delOtp]
      · by_cases h2 : c ≠ stored
        · simp [h1, h2]
        · simp [h1, h2, TFState.delOtp]

/-- The TOTP verdict depends only on the user's config. -/
theorem verify_totp_congr (totpValid : String → String → Bool)
    (st1 st2 : TFState) (u c : String)
    (h : st1.configs u = st2.configs u) :
    verify_totp totpValid st1 u c = verify_totp totpValid st2 u c := by
  unfold verify_totp
  rw [h]

/-- The backup-code verdict depends only on the user's config. -/
theorem verify_backup_code_fst_congr (hash : String → String)
    (st1 st2 : TFState) (u c n1 n2 : String)
    (h : st1.configs u = st2.configs u) :
    (verify_backup_code hash st1 u c n1).1 =
      (verify_backup_code hash st2 u c n2).1 := by
  unfold verify_backup_code
  rw [h]
  cases st2.configs u with
  | none => rfl
  | some cfg =>
    by_cases h1 : cfg.backup_codes.isEmpty
    · simp [h1]
    · by_cases h2 : hash c ∈ cfg.backup_codes
      · simp [h1, h2]
      · simp [h1, h2]

/-- A failed SMS-OTP check stays failed if re-run on the state it
returned (it either left the OTP slot unchanged or deleted it). -/
theorem verify_sms_otp_fail_again (st : TFState) (u c : String) (now : Int)
    (h : (verify_sms_otp st u c now).1 = false) :
    (verify_sms_otp (verify_sms_otp st u c now).2 u c now).1 = false := by
  unfold verify_sms_otp at *
  cases h0 : st.sms_otps u with
  | none => simp [h0]
  | some p =>
    cases p with
    | mk stored expiry =>
      by_cases h1 : expiry < now
      · simp [h0, h1, TFState.delOtp]
      · by_cases h2 : c ≠ stored
        · simp [h0, h1, h2]
        · simp [h0, h1, h2] at h

/-- C4: the ordering contract of `verify_2fa`.  (i)/(ii): an explicitly
requested, enabled method is the only one consulted — the call returns
that verifier's verdict and nothing else (in particular a code that would
only succeed as a backup code or via the other method is rejected).
(iii)/(iv): no config or no enabled method means failure.  (v)/(vi): with
no explicit method, a success of the preferred method short-circuits.
(vii): if the TOTP verifier, the SMS verifier and the backup codes all
reject the code, `verify_2fa` returns false for every `method`
argument.  (viii)/(ix): with no explicit method, when the preferred tier
rejects, a code accepted by the other enabled method (enabled TOTP that is
not preferred, resp. enabled SMS that is not preferred) makes `verify_2fa`
return true.  (x): with no explicit method and some method enabled, when
both verifiers reject, a code accepted as a backup code makes `verify_2fa`
return true — the backup codes are the last tier actually consulted. -/
theorem verify_2fa_ordering (hash : String → String)
    (totpValid : String → String → Bool) (st : TFState) (u c : String)
    (now : Int) (nowStr : String) :
    (∀ cfg, st.configs u = some cfg → cfg.is_totp_enabled = true →
      verify_2fa hash totpValid st u c (some "totp") now nowStr =
        (verify_totp totpValid st u c, st)) ∧
    (∀ cfg, st.configs u = some cfg → cfg.is_sms_enabled = true →
      verify_2fa hash totpValid st u c (some "sms") now nowStr =
        verify_sms_otp st u c now) ∧
    (∀ m, st.configs u = none →
      verify_2fa hash totpValid st u c m now nowStr = (false, st)) ∧
    (∀ m cfg, st.configs u = some cfg → cfg.is_enabled = false →
      verify_2fa hash totpValid st u c m now nowStr = (false, st)) ∧
    (∀ cfg, st.configs u = some cfg →
      cfg.preferred_method = some "totp" → cfg.is_totp_enabled = true →
      verify_totp totpValid st u c = true →
      verify_2fa hash totpValid st u c none now nowStr = (true, st)) ∧
    (∀ cfg, st.configs u = some cfg →
      cfg.preferred_method = some "sms" → cfg.is_sms_enabled = true →
      (verify_sms_otp st u c now).1 = true →
      verify_2fa hash totpValid st u c none now nowStr =
        (true, (verify_sms_otp st u c now).2)) ∧
    (verify_totp totpValid st u c = false →
      (verify_sms_otp st u c now).1 = false →
      (verify_backup_code hash st u c nowStr).1 = false →
      ∀ m, (verify_2fa hash totpValid st u c m now nowStr).1 = false) ∧
    (∀ cfg, st.configs u = some cfg → cfg.is_totp_enabled = true →
      cfg.preferred_method ≠ some "totp" →
      (verify_sms_otp st u c now).1 = false →
      verify_totp totpValid st u c = true →
      (verify_2fa hash totpValid st u c none now nowStr).1 = true) ∧
    (∀ cfg, st.configs u = some cfg → cfg.is_sms_enabled = true →
      cfg.preferred_method ≠ some "sms" →
      verify_totp totpValid st u c = false →
      (verify_sms_otp st u c now).1 = true →
      (verify_2fa hash totpValid st u c none now nowStr).1 = true) ∧
    (∀ cfg, st.configs u = some cfg → cfg.is_enabled = true →
      verify_totp totpValid st u c = false →
      (verify_sms_otp st u c now).1 = false →
      (verify_backup_code hash st u c nowStr).1 = true →
      (verify_2fa hash totpValid st u c none now nowStr).1 = true) := by
  refine ⟨?_, ?_, ?_, ?_, ?_, ?_, ?_, ?_, ?_, ?_⟩
  · intro cfg hcfg hen
    have : cfg.is_enabled = true := by simp [TwoFactorConfig.is_enabled, hen]
    simp [verify_2fa, hcfg, this, hen]
  · intro cfg hcfg hen
    have hene : cfg.is_enabled = true := by
      simp [TwoFactorConfig.is_enabled, hen]
    by_cases ht : cfg.is_totp_enabled
    · simp [verify_2fa, hcfg, hene, hen, ht]
    · simp [verify_2fa, hcfg, hene, hen, ht]
  · intro m hnone
    simp [verify_2fa, hnone]
  · intro m cfg hcfg hdis
    simp [verify_2fa, hcfg, hdis]
  · intro cfg hcfg hpref hen htv
    have hene : cfg.is_enabled = true := by
      simp [TwoFactorConfig.is_enabled, hen]
    simp [verify_2fa, hcfg, hene, hen, hpref, htv]
  · intro cfg hcfg hpref hen hsv
    have hene : cfg.is_enabled = true := by
      simp [TwoFactorConfig.is_enabled, hen]
    by_cases ht : cfg.is_totp_enabled
    · simp [verify_2fa, hcfg, hene, hen, hpref, hsv, ht]
    · simp [verify_2fa, hcfg, hene, hen, hpref, hsv, ht]
  · intro htv hsv hbv m
    cases hcfg : st.configs u with
    | none => simp [verify_2fa, hcfg]
    | some cfg =>
      by_cases hene : cfg.is_enabled = true
      swap
      · simp [verify_2fa, hcfg, hene]
      -- facts about the intermediate states of the fallback chain
      have hsconf := verify_sms_otp_configs st u c now
      have htv2 : verify_totp totpValid (verify_sms_otp st u c now).2 u c =
          false := by
        rw [verify_totp_congr totpValid _ st u c (by rw [hsconf])]; exact htv
      have hsv2 := verify_sms_otp_fail_again st u c now hsv
      have hbv2 : (verify_backup_code hash (verify_sms_otp st u c now).2
          u c nowStr).1 = false := by
        rw [verify_backup_code_fst_congr hash _ st u c nowStr nowStr
          (by rw [hsconf])]
        exact hbv
      have hbv3 : (verify_backup_code hash
          (verify_sms_otp (verify_sms_otp st u c now).2 u c now).2
          u c nowStr).1 = false := by
        rw [verify_backup_code_fst_congr hash _ st u c nowStr nowStr
          (by rw [verify_sms_otp_configs, hsconf])]
        exact hbv
      by_cases hm1 : m = some "totp" ∧ cfg.is_totp_enabled = true
      · simp [verify_2fa, hcfg, hene, hm1, htv]
      · by_cases hm2 : m = some "sms" ∧ cfg.is_sms_enabled = true
        · simp [verify_2fa, hcfg, hene, hm1, hm2, hsv]
        · by_cases hp : cfg.preferred_method = some "totp" ∧
              cfg.is_totp_enabled = true
          · have ho1 : ¬(cfg.is_totp_enabled = true ∧
                cfg.preferred_method ≠ some "totp") := by simp [hp.1]
            have hmt : m ≠ some "totp" := fun hh => hm1 ⟨hh, hp.2⟩
            by_cases hs : cfg.is_sms_enabled = true
            · have hms : m ≠ some "sms" := fun hh => hm2 ⟨hh, hs⟩
              simp [verify_2fa, hcfg, hene, hm1, hm2, hp, htv, ho1, hs,
                hp.1, hsv, hbv2, hmt, hms]
            · simp [verify_2fa, hcfg, hene, hm1, hm2, hp, htv, ho1, hs, hbv,
                hmt]
          · by_cases hq : cfg.preferred_method = some "sms" ∧
                cfg.is_sms_enabled = true
            · have ho2 : ¬(cfg.is_sms_enabled = true ∧
                  cfg.preferred_method ≠ some "sms") := by simp [hq.1]
              have hms : m ≠ some "sms" := fun hh => hm2 ⟨hh, hq.2⟩
              by_cases ht : cfg.is_totp_enabled = true
              · have hmt : m ≠ some "totp" := fun hh => hm1 ⟨hh, ht⟩
                simp [verify_2fa, hcfg, hene, hm1, hm2, hp, hq, hsv, ht,
                  hq.1, htv2, ho2, hbv2, hmt, hms]
              · simp [verify_2fa, hcfg, hene, hm1, hm2, hp, hq, hsv, ht,
                  ho2, hbv2, hms]
            · by_cases ho1 : cfg.is_totp_enabled = true ∧
                  cfg.preferred_method ≠ some "totp"
              · have hmt : m ≠ some "totp" := fun hh => hm1 ⟨hh, ho1.1⟩
                by_cases ho2 : cfg.is_sms_enabled = true ∧
                    cfg.preferred_method ≠ some "sms"
                · have hms : m ≠ some "sms" := fun hh => hm2 ⟨hh, ho2.1⟩
                  simp [verify_2fa, hcfg, hene, hm1, hm2, hp, hq, ho1, ho2,
                    htv, hsv, hbv2, hmt, hms]
                · simp [verify_2fa, hcfg, hene, hm1, hm2, hp, hq, ho1, ho2,
                    htv, hbv, hmt]
              · by_cases ho2 : cfg.is_sms_enabled = true ∧
                    cfg.preferred_method ≠ some "sms"
                · have hms : m ≠ some "sms" := fun hh => hm2 ⟨hh, ho2.1⟩
                  simp [verify_2fa, hcfg, hene, hm1, hm2, hp, hq, ho1, ho2,
                    hsv, hbv2, hms]
                · simp [verify_2fa, hcfg, hene, hm1, hm2, hp, hq, ho1, ho2,
                    hbv]
  · intro cfg hcfg hten hnp hsvf htv
    have hene : cfg.is_enabled = true := by
      simp [TwoFactorConfig.is_enabled, hten]
    have hp : ¬(cfg.preferred_method = some "totp" ∧
        cfg.is_totp_enabled = true) := fun h => hnp h.1
    by_cases hq : cfg.preferred_method = some "sms" ∧
        cfg.is_sms_enabled = true
    · have htv2 : verify_totp totpValid (verify_sms_otp st u c now).2 u c =
          true := by
        rw [verify_totp_congr totpValid _ st u c
          (by rw [verify_sms_otp_configs])]
        exact htv
      simp [verify_2fa, hcfg, hene, hp, hq, hsvf, hten, hnp, htv2]
    · simp [verify_2fa, hcfg, hene, hp, hq, hten, hnp, htv]
  · intro cfg hcfg hsen hns htvf hsvt
    have hene : cfg.is_enabled = true := by
      simp [TwoFactorConfig.is_enabled, hsen]
    by_cases hp : cfg.preferred_method = some "totp" ∧
        cfg.is_totp_enabled = true
    · have ho1 : ¬(cfg.is_totp_enabled = true ∧
          cfg.preferred_method ≠ some "totp") := by simp [hp.1]
      simp [verify_2fa, hcfg, hene, hp, htvf, ho1, hsen, hns, hsvt]
    · have hq : ¬(cfg.preferred_method = some "sms" ∧
          cfg.is_sms_enabled = true) := fun h => hns h.1
      by_cases ht : cfg.is_totp_enabled = true
      · have hnpt : cfg.preferred_method ≠ some "totp" :=
          fun h => hp ⟨h, ht⟩
        simp [verify_2fa, hcfg, hene, hp, hq, ht, hnpt, htvf, hsen, hns,
          hsvt]
      · simp [verify_2fa, hcfg, hene, hp, hq, ht, hsen, hns, hsvt]
  · intro cfg hcfg hene htvf hsvf hbvt
    have hsconf := verify_sms_otp_configs st u c now
    have htv2 : verify_totp totpValid (verify_sms_otp st u c now).2 u c =
        false := by
      rw [verify_totp_congr totpValid _ st u c (by rw [hsconf])]
      exact htvf
    have hbvt2 : (verify_backup_code hash (verify_sms_otp st u c now).2
        u c nowStr).1 = true := by
      rw [verify_backup_code_fst_congr hash _ st u c nowStr nowStr
        (by rw [hsconf])]
      exact hbvt
    by_cases hp : cfg.preferred_method = some "totp" ∧
        cfg.is_totp_enabled = true
    · have ho1 : ¬(cfg.is_totp_enabled = true ∧
          cfg.preferred_method ≠ some "totp") := by simp [hp.1]
      by_cases hs : cfg.is_sms_enabled = true
      · simp [verify_2fa, hcfg, hene, hp, htvf, ho1, hs, hp.1, hsvf,
          hbvt2]
      · simp [verify_2fa, hcfg, hene, hp, htvf, ho1, hs, hbvt]
    · by_cases hq : cfg.preferred_method = some "sms" ∧
          cfg.is_sms_enabled = true
      · have ho2 : ¬(cfg.is_sms_enabled = true ∧
            cfg.preferred_method ≠ some "sms") := by simp [hq.1]
        by_cases ht : cfg.is_totp_enabled = true
        · simp [verify_2fa, hcfg, hene, hp, hq, hsvf, ht, hq.1, htv2,
            ho2, hbvt2]
        · simp [verify_2fa, hcfg, hene, hp, hq, hsvf, ht, ho2, hbvt2]
      · by_cases ho1 : cfg.is_totp_enabled = true ∧
            cfg.preferred_method ≠ some "totp"
        · by_cases ho2 : cfg.is_sms_enabled = true ∧
              cfg.preferred_method ≠ some "sms"
          · simp [verify_2fa, hcfg, hene, hp, hq, ho1, ho2, htvf, hsvf,
              hbvt2]
          · simp [verify_2fa, hcfg, hene, hp, hq, ho1, ho2, htvf, hbvt]
        · by_cases ho2 : cfg.is_sms_enabled = true ∧
              cfg.preferred_method ≠ some "sms"
          · simp [verify_2fa, hcfg, hene, hp, hq, ho1, ho2, hsvf, hbvt2]
          · simp [verify_2fa, hcfg, hene, hp, hq, ho1, ho2, hbvt]

/-- Closed instance of C4: conjunct (vii) at a user with TOTP enabled
whose verifier rejects the code, no outstanding SMS OTP and no backup
codes; and conjunct (x) at the same user holding a backup-code hash, whose
correct backup code is accepted through the fallback chain. -/
theorem verify_2fa_ordering_witness :
    (verify_2fa (fun s => String.append "#" s) (fun _ _ => false)
      ⟨fun v => if v = "u1" then
          some { user_id := "u1", is_totp_enabled := true,
                 totp_secret := some "S" }
        else none, fun _ => none⟩ "u1" "000000" (some "totp") 0 "T").1 =
      false ∧
    (verify_2fa (fun s => String.append "#" s) (fun _ _ => false)
      ⟨fun v => if v = "u1" then
          some { user_id := "u1", is_totp_enabled := true,
                 totp_secret := some "S", backup_codes := ["#c1"] }
        else none, fun _ => none⟩ "u1" "c1" none 0 "T").1 = true := by
  have h := verify_2fa_ordering (fun s => String.append "#" s)
    (fun _ _ => false)
    ⟨fun v => if v = "u1" then
        some { user_id := "u1", is_totp_enabled := true,
               totp_secret := some "S" }
      else none, fun _ => none⟩ "u1" "000000" 0 "T"
  have h2 := verify_2fa_ordering (fun s => String.append "#" s)
    (fun _ _ => false)
    ⟨fun v => if v = "u1" then
        some { user_id := "u1", is_totp_enabled := true,
               totp_secret := some "S", backup_codes := ["#c1"] }
      else none, fun _ => none⟩ "u1" "c1" 0 "T"
  constructor
  · exact h.2.2.2.2.2.2.1 (by decide) (by decide) (by decide) (some "totp")
  · exact h2.2.2.2.2.2.2.2.2.2
      { user_id := "u1", is_totp_enabled := true, totp_secret := some "S",
        backup_codes := ["#c1"] }
      (by decide) (by decide) (by decide) (by decide) (by decide)

/-- C5 counterexample: a user whose `preferred_method` is `"sms"` and who
already holds a backup-code hash `"H1"`; a successful
`verify_totp_setup` overwrites the preference with `"totp"` and replaces
the existing backup codes, contradicting the claim that both are
preserved.  (The abstract TOTP verifier accepts, modelling the user
submitting the correct code.) -/
theorem verify_totp_setup_overwrites :
    (verify_totp_setup (fun s => String.append "#" s) (fun _ _ => true)
      (fun _ => "c")
      ⟨fun v => if v = "u1" then
          some { user_id := "u1", is_sms_enabled := true,
                 totp_secret := some "S", preferred_method := some "sms",
                 backup_codes := ["H1"] }
        else none, fun _ => none⟩ "u1" "123456" "T").1 = true ∧
    ((verify_totp_setup (fun s => String.append "#" s) (fun _ _ => true)
      (fun _ => "c")
      ⟨fun v => if v = "u1" then
          some { user_id := "u1", is_sms_enabled := true,
                 totp_secret := some "S", preferred_method := some "sms",
                 backup_codes := ["H1"] }
        else none, fun _ => none⟩ "u1" "123456" "T").2.configs "u1").map
      TwoFactorConfig.preferred_method ≠ some (some "sms") ∧
    ((verify_totp_setup (fun s => String.append "#" s) (fun _ _ => true)
      (fun _ => "c")
      ⟨fun v => if v = "u1" then
          some { user_id := "u1", is_sms_enabled := true,
                 totp_secret := some "S", preferred_method := some "sms",
                 backup_codes := ["H1"] }
        else none, fun _ => none⟩ "u1" "123456" "T").2.configs "u1").map
      TwoFactorConfig.backup_codes ≠ some ["H1"] := by
  refine ⟨by decide, by decide, by decide⟩

/-- C5 amended: on a successful `verify_totp_setup`, `totp_enabled`
becomes true and the verification time is recorded, but `preferred_method`
is unconditionally set to `"totp"` (overwriting any previous preference
such as `"sms"`) and the backup codes are unconditionally replaced by the
10 freshly generated hashes (discarding any existing codes). -/
theorem verify_totp_setup_success (hash : String → String)
    (totpValid : String → String → Bool) (gen : Nat → String) (st : TFState)
    (u code nowStr : String) (cfg : TwoFactorConfig) (secret : String)
    (hcfg : st.configs u = some cfg) (hsec : cfg.totp_secret = some secret)
    (hvalid : totpValid secret code = true) :
    (verify_totp_setup hash totpValid gen st u code nowStr).1 = true ∧
    ∃ cfg', (verify_totp_setup hash totpValid gen st u code nowStr).2.configs
        u = some cfg' ∧
      cfg'.is_totp_enabled = true ∧ cfg'.totp_verified_at = some nowStr ∧
      cfg'.preferred_method = some "totp" ∧
      cfg'.backup_codes = generate_backup_codes hash gen 10 ∧
      cfg'.backup_codes.length = 10 := by
  refine ⟨by simp [verify_totp_setup, hcfg, hsec, hvalid], ?_⟩
  refine ⟨{ cfg with is_totp_enabled := true,
                     totp_verified_at := some nowStr,
                     preferred_method := some "totp", updated_at := nowStr,
                     backup_codes := generate_backup_codes hash gen 10 },
          ?_, rfl, rfl, rfl, rfl, ?_⟩
  · simp [verify_totp_setup, hcfg, hsec, hvalid, TFState.setConfig]
  · simp [generate_backup_codes]

/-- Closed instance of the amended C5. -/
theorem verify_totp_setup_success_witness :
    (verify_totp_setup (fun s => String.append "#" s) (fun _ _ => true)
      (fun _ => "c")
      ⟨fun v => if v = "u1" then
          some { user_id := "u1", is_sms_enabled := true,
                 totp_secret := some "S", preferred_method := some "sms",
                 backup_codes := ["H1"] }
        else none, fun _ => none⟩ "u1" "123456" "T").1 = true ∧
    ∃ cfg', (verify_totp_setup (fun s => String.append "#" s)
        (fun _ _ => true) (fun _ => "c")
      ⟨fun v => if v = "u1" then
          some { user_id := "u1", is_sms_enabled := true,
                 totp_secret := some "S", preferred_method := some "sms",
                 backup_codes := ["H1"] }
        else none, fun _ => none⟩ "u1" "123456" "T").2.configs "u1" =
        some cfg' ∧
      cfg'.is_totp_enabled = true ∧ cfg'.totp_verified_at = some "T" ∧
      cfg'.preferred_method = some "totp" ∧
      cfg'.backup_codes =
        generate_backup_codes (fun s => String.append "#" s)
          (fun _ => "c") 10 ∧
      cfg'.backup_codes.length = 10 :=
  verify_totp_setup_success (fun s => String.append "#" s) (fun _ _ => true)
    (fun _ => "c")
    ⟨fun v => if v = "u1" then
        some { user_id := "u1", is_sms_enabled := true,
               totp_secret := some "S", preferred_method := some "sms",
               backup_codes := ["H1"] }
      else none, fun _ => none⟩ "u1" "123456" "T"
    { user_id := "u1", is_sms_enabled := true, totp_secret := some "S",
      preferred_method := some "sms", backup_codes := ["H1"] } "S"
    (by simp) rfl rfl

/-- C6: at most one active reset token per user: after a second
`request_password_reset` for the same user, `validate_reset_token` on the
raw token issued by the first request returns `none` at every clock
(the second request marked the first token used).  The hypothesis rules
out a SHA-256 collision between the two raw tokens. -/
theorem second_reset_request_invalidates_first (hashT : String → String)
    (st : PRState) (u email1 email2 raw1 raw2 : String) (t1 t2 : Int)
    (hdist : hashT raw1 ≠ hashT raw2) (ok1 ok2 : Bool) :
    ∀ tv : Int,
      validate_reset_token hashT
        (request_password_reset hashT
          (request_password_reset hashT st u email1 raw1 t1 ok1).2
          u email2 raw2 t2 ok2).2 raw1 tv = none := by
  intro tv
  set stA := (request_password_reset hashT st u email1 raw1 t1 ok1).2
    with hstA
  have hAu : stA.user_tokens u = some (hashT raw1) := by
    rw [hstA]; simp [request_password_reset]
  have hAtok : stA.tokens (hashT raw1) =
      some { token_hash := hashT raw1, user_id := u, email := email1,
             created_at := t1, expires_at := t1 + 24 * 3600 } := by
    rw [hstA]; simp [request_password_reset]
  have hCtok : (invalidate_user_tokens stA u t2).2.tokens (hashT raw1) =
      some { token_hash := hashT raw1, user_id := u, email := email1,
             created_at := t1, expires_at := t1 + 24 * 3600, used := true,
             used_at := some t2 } := by
    simp [invalidate_user_tokens, hAu, hAtok]
  simp [request_password_reset, validate_reset_token, hdist, hCtok]

/-- Closed instance of C6 from the empty token store. -/
theorem second_reset_request_invalidates_first_witness :
    ((fun s => String.append "#" s) "r1" ≠
      (fun s => String.append "#" s) "r2") ∧
    validate_reset_token (fun s => String.append "#" s)
      (request_password_reset (fun s => String.append "#" s)
        (request_password_reset (fun s => String.append "#" s)
          ⟨fun _ => none, fun _ => none⟩ "u1" "a@b.c" "r1" 0 true).2
        "u1" "a@b.c" "r2" 50 true).2 "r1" 60 = none :=
  ⟨by decide,
   second_reset_request_invalidates_first (fun s => String.append "#" s)
     ⟨fun _ => none, fun _ => none⟩ "u1" "a@b.c" "a@b.c" "r1" "r2" 0 50
     (by decide) true true 60⟩

/-- C7: `reset_password` on a token that exists but is expired returns
`none` and leaves both the token store and the user store (Credential
Store) untouched — and identically so for a not-found or already-used
token: `reset_password_with_token` returns `false` with the exact same
stores it was given, so no user's `password_hash` changes. -/
theorem reset_password_invalid_token_no_mutation
    (hashT pwHash : String → String) (prst : PRState)
    (users : String → Option User) (raw npw : String) (now : Int)
    (nowStr : String)
    (hbad : prst.tokens (hashT raw) = none ∨
      ∃ tok, prst.tokens (hashT raw) = some tok ∧
        (tok.used = true ∨ tok.expires_at < now)) :
    reset_password hashT prst raw npw pwHash now = (none, prst) ∧
    reset_password_with_token hashT pwHash prst users raw npw now nowStr =
      (false, prst, users) := by
  have hval : validate_reset_token hashT prst raw now = none := by
    rcases hbad with h | ⟨tok, htok, hcase⟩
    · simp [validate_reset_token, h]
    · rcases hcase with hu | he
      · simp [validate_reset_token, htok, hu]
      · by_cases hu : tok.used
        · simp [validate_reset_token, htok, hu]
        · simp [validate_reset_token, htok, hu, he]
  constructor
  · simp [reset_password, hval]
  · simp [reset_password_with_token, reset_password, hval]

/-- Closed instance of C7 on a store holding one expired token. -/
theorem reset_password_invalid_token_no_mutation_witness :
    (∃ tok, (⟨fun v => if v = "#r" then
          some { token_hash := "#r", user_id := "u1", email := "a@b.c",
                 created_at := 0, expires_at := 10 }
        else none, fun _ => none⟩ : PRState).tokens
          ((fun s => String.append "#" s) "r") = some tok ∧
        (tok.used = true ∨ tok.expires_at < 100)) ∧
    reset_password_with_token (fun s => String.append "#" s)
      (fun s => String.append "PW" s)
      ⟨fun v => if v = "#r" then
          some { token_hash := "#r", user_id := "u1", email := "a@b.c",
                 created_at := 0, expires_at := 10 }
        else none, fun _ => none⟩
      (fun v => if v = "u1" then
          some { user_id := "u1", tenant_id := "t1", email := "a@b.c",
                 password_hash := some "old" }
        else none) "r" "newpw" 100 "T" =
      (false,
       ⟨fun v => if v = "#r" then
          some { token_hash := "#r", user_id := "u1", email := "a@b.c",
                 created_at := 0, expires_at := 10 }
        else none, fun _ => none⟩,
       fun v => if v = "u1" then
          some { user_id := "u1", tenant_id := "t1", email := "a@b.c",
                 password_hash := some "old" }
        else none) :=
  ⟨⟨{ token_hash := "#r", user_id := "u1", email := "a@b.c",
      created_at := 0, expires_at := 10 }, by decide, Or.inr (by decide)⟩,
   (reset_password_invalid_token_no_mutation (fun s => String.append "#" s)
     (fun s => String.append "PW" s)
     ⟨fun v => if v = "#r" then
         some { token_hash := "#r", user_id := "u1", email := "a@b.c",
                created_at := 0, expires_at := 10 }
       else none, fun _ => none⟩
     (fun v => if v = "u1" then
         some { user_id := "u1", tenant_id := "t1", email := "a@b.c",
                password_hash := some "old" }
       else none) "r" "newpw" 100 "T"
     (Or.inr ⟨{ token_hash := "#r", user_id := "u1", email := "a@b.c",
                created_at := 0, expires_at := 10 },
              by decide, Or.inr (by decide)⟩)).2⟩

/-- C10: state is committed before notification dispatch.  With the
Notifier failing (`false`), `request_password_reset` returns false yet the
reset token is stored and still validates until its expiry, and
`send_sms_otp` returns false yet the OTP is stored with its 5-minute
expiry and still verifies — a failed dispatch never rolls back stored
state. -/
theorem state_committed_before_dispatch (hashT : String → String)
    (st : PRState) (tf : TFState) (u email raw phone otp : String)
    (now : Int) :
    ((request_password_reset hashT st u email raw now false).1 = false ∧
     (request_password_reset hashT st u email raw now false).2.tokens
         (hashT raw) =
       some { token_hash := hashT raw, user_id := u, email := email,
              created_at := now, expires_at := now + 24 * 3600 } ∧
     ∀ tv, tv ≤ now + 24 * 3600 →
       validate_reset_token hashT
           (request_password_reset hashT st u email raw now false).2 raw tv =
         some { token_hash := hashT raw, user_id := u, email := email,
                created_at := now, expires_at := now + 24 * 3600 }) ∧
    ((send_sms_otp tf u phone otp now false).1 = false ∧
     (send_sms_otp tf u phone otp now false).2.sms_otps u =
       some (otp, now + 5 * 60) ∧
     ∀ tv, tv ≤ now + 5 * 60 →
       (verify_sms_otp (send_sms_otp tf u phone otp now false).2 u otp
           tv).1 = true) := by
  refine ⟨⟨rfl, ?_, ?_⟩, rfl, ?_, ?_⟩
  · simp [request_password_reset]
  · intro tv htv
    have h2 : (request_password_reset hashT st u email raw now
        false).2.tokens (hashT raw) =
        some { token_hash := hashT raw, user_id := u, email := email,
               created_at := now, expires_at := now + 24 * 3600 } := by
      simp [request_password_reset]
    simp only [validate_reset_token, h2]
    rw [if_neg (by simp), if_neg (by omega)]
  · simp [send_sms_otp]
  · intro tv htv
    have h2 : (send_sms_otp tf u phone otp now false).2.sms_otps u =
        some (otp, now + 5 * 60) := by
      simp [send_sms_otp]
    simp only [verify_sms_otp, h2]
    rw [if_neg (by omega), if_neg (by simp)]

/-- Closed instance of C10 with a failing Notifier. -/
theorem state_committed_before_dispatch_witness :
    ((request_password_reset (fun s => String.append "#" s)
        ⟨fun _ => none, fun _ => none⟩ "u1" "a@b.c" "r" 0 false).1 =
      false) ∧
    validate_reset_token (fun s => String.append "#" s)
      (request_password_reset (fun s => String.append "#" s)
        ⟨fun _ => none, fun _ => none⟩ "u1" "a@b.c" "r" 0 false).2 "r" 100 =
      some { token_hash := "#r", user_id := "u1", email := "a@b.c",
             created_at := 0, expires_at := 86400 } ∧
    (verify_sms_otp (send_sms_otp ⟨fun _ => none, fun _ => none⟩
        "u1" "+100" "123456" 0 false).2 "u1" "123456" 100).1 = true := by
  have h := state_committed_before_dispatch (fun s => String.append "#" s)
    ⟨fun _ => none, fun _ => none⟩ ⟨fun _ => none, fun _ => none⟩
    "u1" "a@b.c" "r" "+100" "123456" 0
  exact ⟨h.1.1, h.1.2.2 100 (by decide), h.2.2.2 100 (by decide)⟩

/-- `session_le` is transitive. -/
theorem session_le_trans (a b c : SessionInfo) (h1 : session_le a b = true)
    (h2 : session_le b c = true) : session_le a c = true := by
  simp only [session_le, decide_eq_true_eq] at *
  omega

/-- `session_le` is total. -/
theorem session_le_total (a b : SessionInfo) :
    (session_le a b || session_le b a) = true := by
  simp only [session_le, Bool.or_eq_true, decide_eq_true_eq]
  omega

/-- When the lookup function labels each hit with its key, the ids of a
`filterMap` form a sublist of the scanned keys. -/
theorem filterMap_session_ids_sublist (f : String → Option SessionInfo)
    (l : List String) (hf : ∀ i s, f i = some s → s.session_id = i) :
    ((l.filterMap f).map SessionInfo.session_id).Sublist l := by
  induction l with
  | nil => simp
  | cons i l ih =>
    cases hfi : f i with
    | none =>
      simp only [List.filterMap_cons, hfi]
      exact ih.cons i
    | some s =>
      simp only [List.filterMap_cons, hfi, List.map_cons, hf i s hfi]
      exact ih.cons₂ i

/-- Every member of `activeSessionsOf` is stored at its own id and is
active (assuming the store labels sessions with their keys). -/
theorem mem_activeSessionsOf (st : SessionState) (u : String)
    (hwf : ∀ i s, st.sessions i = some s → s.session_id = i) :
    ∀ e ∈ activeSessionsOf st u,
      st.sessions e.session_id = some e ∧ e.is_active = true := by
  intro e he
  simp only [activeSessionsOf, List.mem_filterMap] at he
  obtain ⟨i, _, hfi⟩ := he
  cases hsi : st.sessions i with
  | none => rw [hsi] at hfi; simp at hfi
  | some s =>
    rw [hsi] at hfi
    by_cases ha : s.is_active = true
    · simp only [ha, if_true] at hfi
      cases hfi
      exact ⟨by rw [hwf i e hsi]; exact hsi, ha⟩
    · simp [ha] at hfi

/-- Characterization of the invalidation loop in
`_enforce_session_limit`: folding `invalidate_session` over a list of
distinct, present, active sessions leaves the user index unchanged,
leaves every other session untouched, and replaces each listed session by
its `inactivated` record. -/
theorem invalidate_foldl_spec (now : Int) (L : List SessionInfo) :
    ∀ st0 : SessionState,
    (L.map SessionInfo.session_id).Nodup →
    (∀ e ∈ L, st0.sessions e.session_id = some e ∧ e.is_active = true) →
    ((L.foldl (fun acc s =>
        (invalidate_session acc s.session_id "session_limit_exceeded"
          now).2) st0).user_sessions = st0.user_sessions) ∧
    (∀ j, j ∉ L.map SessionInfo.session_id →
      (L.foldl (fun acc s =>
        (invalidate_session acc s.session_id "session_limit_exceeded"
          now).2) st0).sessions j = st0.sessions j) ∧
    (∀ e ∈ L, (L.foldl (fun acc s =>
        (invalidate_session acc s.session_id "session_limit_exceeded"
          now).2) st0).sessions e.session_id = some (inactivated e now)) := by
  induction L with
  | nil =>
    intro st0 _ _
    exact ⟨rfl, fun j _ => rfl, fun e he => absurd he (List.not_mem_nil e)⟩
  | cons e L ih =>
    intro st0 hnd hpre
    have he := hpre e (List.mem_cons_self e L)
    have hstep : (invalidate_session st0 e.session_id
        "session_limit_exceeded" now).2 =
        st0.setSession e.session_id (inactivated e now) := by
      simp [invalidate_session, he.1, he.2, inactivated]
    have hid : e.session_id ∉ L.map SessionInfo.session_id := by
      simp only [List.map_cons, List.nodup_cons] at hnd
      exact hnd.1
    have hpre2 : ∀ e2 ∈ L,
        (st0.setSession e.session_id (inactivated e now)).sessions
          e2.session_id = some e2 ∧ e2.is_active = true := by
      intro e2 he2
      have hne : e2.session_id ≠ e.session_id := by
        intro hcontra
        exact hid (hcontra ▸ List.mem_map_of_mem SessionInfo.session_id he2)
      refine ⟨?_, (hpre e2 (List.mem_cons_of_mem e he2)).2⟩
      simp only [SessionState.setSession, if_neg hne]
      exact (hpre e2 (List.mem_cons_of_mem e he2)).1
    have hrec := ih (st0.setSession e.session_id (inactivated e now))
      (by simp only [List.map_cons, List.nodup_cons] at hnd; exact hnd.2)
      hpre2
    refine ⟨?_, ?_, ?_⟩
    · rw [List.foldl_cons, hstep]
      rw [hrec.1]
      rfl
    · intro j hj
      simp only [List.map_cons, List.mem_cons, not_or] at hj
      rw [List.foldl_cons, hstep, hrec.2.1 j hj.2]
      simp only [SessionState.setSession, if_neg hj.1]
    · intro e2 he2
      rcases List.mem_cons.mp he2 with rfl | he2L
      · rw [List.foldl_cons, hstep, hrec.2.1 e2.session_id hid]
        simp [SessionState.setSession]
      · rw [List.foldl_cons, hstep]
        exact hrec.2.2 e2 he2L

/-- Effect of `_enforce_session_limit` on a well-formed state: the active
count ends at or below the cap, the user index is unchanged, and any
session that was active but ends inactive carries reason
`"session_limit_exceeded"` and was least-recently-active relative to
every surviving active session. -/
theorem enforce_session_limit_spec (maxS : Nat) (st1 : SessionState)
    (u : String) (now : Int)
    (hwf : ∀ i s, st1.sessions i = some s → s.session_id = i)
    (hnd : (st1.user_sessions u).Nodup) :
    (activeSessionsOf (enforce_session_limit maxS st1 u now) u).length ≤
      maxS ∧
    (enforce_session_limit maxS st1 u now).user_sessions =
      st1.user_sessions ∧
    (∀ i s1 s', st1.sessions i = some s1 → s1.is_active = true →
      (enforce_session_limit maxS st1 u now).sessions i = some s' →
      s'.is_active = false →
      s'.invalidation_reason = some "session_limit_exceeded" ∧
      (∀ j s2,
        (enforce_session_limit maxS st1 u now).sessions j = some s2 →
        j ∈ (enforce_session_limit maxS st1 u now).user_sessions u →
        s2.is_active = true →
        s'.last_activity_at ≤ s2.last_activity_at)) := by
  by_cases hlen : (st1.user_sessions u).length ≤ maxS
  · have heq : enforce_session_limit maxS st1 u now = st1 := by
      simp [enforce_session_limit, hlen]
    rw [heq]
    refine ⟨?_, rfl, ?_⟩
    · calc (activeSessionsOf st1 u).length
          ≤ (st1.user_sessions u).length := List.length_filterMap_le _ _
        _ ≤ maxS := hlen
    · intro i s1 s' h1 ha h2 hia
      rw [h1] at h2
      cases h2
      simp [ha] at hia
  · have hst' : enforce_session_limit maxS st1 u now =
        (evicted_sessions maxS st1 u).foldl
          (fun acc s =>
            (invalidate_session acc s.session_id "session_limit_exceeded"
              now).2) st1 := by
      simp [enforce_session_limit, hlen]
    have hperm : (sorted_active st1 u).Perm (activeSessionsOf st1 u) :=
      List.mergeSort_perm _ _
    have hpair : List.Pairwise (fun a b => session_le a b = true)
        (sorted_active st1 u) :=
      List.sorted_mergeSort session_le_trans session_le_total _
    have hmemA := mem_activeSessionsOf st1 u hwf
    have hmemS : ∀ e ∈ sorted_active st1 u,
        st1.sessions e.session_id = some e ∧ e.is_active = true :=
      fun e he => hmemA e (hperm.mem_iff.mp he)
    have hsubl : ((activeSessionsOf st1 u).map
        SessionInfo.session_id).Sublist (st1.user_sessions u) := by
      rw [activeSessionsOf]
      apply filterMap_session_ids_sublist
      intro i s hfi
      cases hsi : st1.sessions i with
      | none => rw [hsi] at hfi; simp at hfi
      | some s0 =>
        rw [hsi] at hfi
        by_cases ha : s0.is_active = true
        · simp only [ha, if_true] at hfi
          cases hfi
          exact hwf i s hsi
        · simp [ha] at hfi
    have hndA : ((activeSessionsOf st1 u).map
        SessionInfo.session_id).Nodup := hsubl.nodup hnd
    have hndS : ((sorted_active st1 u).map
        SessionInfo.session_id).Nodup :=
      ((hperm.map SessionInfo.session_id).nodup_iff).mpr hndA
    have hndE : ((evicted_sessions maxS st1 u).map
        SessionInfo.session_id).Nodup := by
      rw [evicted_sessions, List.map_take]
      exact (List.take_sublist _ _).nodup hndS
    have hmemE : ∀ e ∈ evicted_sessions maxS st1 u,
        st1.sessions e.session_id = some e ∧ e.is_active = true := by
      intro e he
      rw [evicted_sessions] at he
      exact hmemS e ((List.take_sublist _ _).subset he)
    have hfold := invalidate_foldl_spec now (evicted_sessions maxS st1 u)
      st1 hndE hmemE
    rw [hst']
    set F := (evicted_sessions maxS st1 u).foldl
      (fun acc s =>
        (invalidate_session acc s.session_id "session_limit_exceeded"
          now).2) st1 with hF
    set pfun := (fun s : SessionInfo =>
      decide (s.session_id ∉
        (evicted_sessions maxS st1 u).map SessionInfo.session_id))
      with hpfun
    have hpoint : ∀ i ∈ st1.user_sessions u,
        (match F.sessions i with
         | some s => if s.is_active = true then some s else none
         | none => none) =
        Option.filter pfun
          (match st1.sessions i with
           | some s => if s.is_active = true then some s else none
           | none => none) := by
      intro i _
      by_cases hiE : i ∈ (evicted_sessions maxS st1 u).map
          SessionInfo.session_id
      · obtain ⟨e, heE, heid⟩ := List.mem_map.mp hiE
        have h1 := hfold.2.2 e heE
        have h2 := hmemE e heE
        rw [heid] at h1 h2
        rw [h1, h2.1]
        have hpe : pfun e = false := by
          rw [hpfun]
          simp only [decide_eq_false_iff_not, not_not]
          rw [heid]
          exact hiE
        simp [inactivated, h2.2, Option.filter, hpe]
      · have h1 := hfold.2.1 i hiE
        rw [h1]
        cases hsi : st1.sessions i with
        | none => simp [Option.filter]
        | some s =>
          by_cases ha : s.is_active = true
          · have hsid : s.session_id = i := hwf i s hsi
            have hps : pfun s = true := by
              rw [hpfun]
              simp only [decide_eq_true_eq]
              rw [hsid]
              exact hiE
            simp [ha, Option.filter, hps]
          · simp [ha, Option.filter]
    have hactive : activeSessionsOf F u =
        (activeSessionsOf st1 u).filter pfun := by
      unfold activeSessionsOf
      rw [hfold.1, List.filter_filterMap]
      exact List.filterMap_congr hpoint
    refine ⟨?_, hfold.1, ?_⟩
    · rw [hactive]
      rw [← (hperm.filter pfun).length_eq]
      have hpe : ∀ e ∈ evicted_sessions maxS st1 u, pfun e = false := by
        intro e heE
        simp [hpfun]
        exact ⟨e, heE, rfl⟩
      have hsplit := List.take_append_drop
        ((sorted_active st1 u).length - maxS) (sorted_active st1 u)
      calc ((sorted_active st1 u).filter pfun).length
          = ((((sorted_active st1 u).take
                ((sorted_active st1 u).length - maxS)).filter pfun) ++
             (((sorted_active st1 u).drop
                ((sorted_active st1 u).length - maxS)).filter
               pfun)).length := by
            rw [← List.filter_append, hsplit]
        _ = ((((sorted_active st1 u).drop
                ((sorted_active st1 u).length - maxS)).filter
               pfun)).length := by
            rw [show ((sorted_active st1 u).take
                ((sorted_active st1 u).length - maxS)).filter pfun =
                [] from List.filter_eq_nil_iff.mpr
                  (fun e he => by
                    rw [hpe e (by rw [evicted_sessions]; exact he)]
                    simp)]
            rw [List.nil_append]
        _ ≤ ((sorted_active st1 u).drop
              ((sorted_active st1 u).length - maxS)).length :=
            List.length_filter_le _ _
        _ ≤ maxS := by
            rw [List.length_drop]
            omega
    · intro i s1 s' h1 ha h2 hia
      by_cases hiE : i ∈ (evicted_sessions maxS st1 u).map
          SessionInfo.session_id
      · obtain ⟨e, heE, heid⟩ := List.mem_map.mp hiE
        have hFe := hfold.2.2 e heE
        rw [heid] at hFe
        rw [h2] at hFe
        cases hFe
        refine ⟨rfl, ?_⟩
        intro j s2 hj2 hjmem hs2a
        have hjE : j ∉ (evicted_sessions maxS st1 u).map
            SessionInfo.session_id := by
          intro hjE
          obtain ⟨e2, he2E, he2id⟩ := List.mem_map.mp hjE
          have hFe2 := hfold.2.2 e2 he2E
          rw [he2id] at hFe2
          rw [hj2] at hFe2
          cases hFe2
          simp [inactivated] at hs2a
        have hj1 : st1.sessions j = some s2 := by
          rw [← hfold.2.1 j hjE]
          exact hj2
        have hjmem1 : j ∈ st1.user_sessions u := by
          rw [← hfold.1]
          exact hjmem
        have hs2A : s2 ∈ activeSessionsOf st1 u := by
          rw [activeSessionsOf]
          rw [List.mem_filterMap]
          refine ⟨j, hjmem1, ?_⟩
          rw [hj1]
          simp [hs2a]
        have hs2S : s2 ∈ sorted_active st1 u := hperm.mem_iff.mpr hs2A
        have hsplit := List.take_append_drop
          ((sorted_active st1 u).length - maxS) (sorted_active st1 u)
        have hs2D : s2 ∈ (sorted_active st1 u).drop
            ((sorted_active st1 u).length - maxS) := by
          rcases List.mem_append.mp (by rw [hsplit]; exact hs2S) with
            hE2 | hD2
          · exfalso
            apply hjE
            rw [← hwf j s2 hj1]
            apply List.mem_map_of_mem SessionInfo.session_id
            rw [evicted_sessions]
            exact hE2
          · exact hD2
        have hpair2 : List.Pairwise (fun a b => session_le a b = true)
            (((sorted_active st1 u).take
                ((sorted_active st1 u).length - maxS)) ++
             ((sorted_active st1 u).drop
                ((sorted_active st1 u).length - maxS))) := by
          rw [hsplit]
          exact hpair
        have hle := (List.pairwise_append.mp hpair2).2.2 e
          (by rw [evicted_sessions] at heE; exact heE) s2 hs2D
        simp only [session_le, decide_eq_true_eq] at hle
        simpa [inactivated] using hle
      · exfalso
        have := hfold.2.1 i hiE
        rw [h2] at this
        rw [h1] at this
        cases this
        simp [ha] at hia

/-- `_enforce_session_limit` preserves the well-formedness invariants the
main theorem assumes: sessions stay stored under their own id and the
user index is unchanged. -/
theorem enforce_session_limit_preserves_wf (maxS : Nat)
    (st1 : SessionState) (u : String) (now : Int)
    (hwf : ∀ i s, st1.sessions i = some s → s.session_id = i)
    (hnd : (st1.user_sessions u).Nodup) :
    (∀ i s, (enforce_session_limit maxS st1 u now).sessions i = some s →
      s.session_id = i) ∧
    (enforce_session_limit maxS st1 u now).user_sessions =
      st1.user_sessions := by
  by_cases hlen : (st1.user_sessions u).length ≤ maxS
  · have heq : enforce_session_limit maxS st1 u now = st1 := by
      simp [enforce_session_limit, hlen]
    rw [heq]
    exact ⟨hwf, rfl⟩
  · have hst' : enforce_session_limit maxS st1 u now =
        (evicted_sessions maxS st1 u).foldl
          (fun acc s =>
            (invalidate_session acc s.session_id "session_limit_exceeded"
              now).2) st1 := by
      simp [enforce_session_limit, hlen]
    have hperm : (sorted_active st1 u).Perm (activeSessionsOf st1 u) :=
      List.mergeSort_perm _ _
    have hmemA := mem_activeSessionsOf st1 u hwf
    have hmemS : ∀ e ∈ sorted_active st1 u,
        st1.sessions e.session_id = some e ∧ e.is_active = true :=
      fun e he => hmemA e (hperm.mem_iff.mp he)
    have hsubl : ((activeSessionsOf st1 u).map
        SessionInfo.session_id).Sublist (st1.user_sessions u) := by
      rw [activeSessionsOf]
      apply filterMap_session_ids_sublist
      intro i s hfi
      cases hsi : st1.sessions i with
      | none => rw [hsi] at hfi; simp at hfi
      | some s0 =>
        rw [hsi] at hfi
        by_cases ha : s0.is_active = true
        · simp only [ha, if_true] at hfi
          cases hfi
          exact hwf i s hsi
        · simp [ha] at hfi
    have hndS : ((sorted_active st1 u).map
        SessionInfo.session_id).Nodup :=
      ((hperm.map SessionInfo.session_id).nodup_iff).mpr (hsubl.nodup hnd)
    have hndE : ((evicted_sessions maxS st1 u).map
        SessionInfo.session_id).Nodup := by
      rw [evicted_sessions, List.map_take]
      exact (List.take_sublist _ _).nodup hndS
    have hmemE : ∀ e ∈ evicted_sessions maxS st1 u,
        st1.sessions e.session_id = some e ∧ e.is_active = true := by
      intro e he
      rw [evicted_sessions] at he
      exact hmemS e ((List.take_sublist _ _).subset he)
    have hfold := invalidate_foldl_spec now (evicted_sessions maxS st1 u)
      st1 hndE hmemE
    rw [hst']
    constructor
    · intro i s hi
      by_cases hiE : i ∈ (evicted_sessions maxS st1 u).map
          SessionInfo.session_id
      · obtain ⟨e, heE, heid⟩ := List.mem_map.mp hiE
        have hFe := hfold.2.2 e heE
        rw [heid] at hFe
        rw [hi] at hFe
        cases hFe
        rw [show (inactivated e now).session_id = e.session_id from rfl,
          heid]
      · rw [hfold.2.1 i hiE] at hi
        exact hwf i s hi
    · exact hfold.1

/-- `create_session` preserves the invariants assumed by the C3 theorem —
so after any sequence of `create_session` calls with fresh random ids,
starting from the empty registry, the hypotheses of the main theorem keep
holding: sessions remain stored under their own id, and the user's id
list stays duplicate-free whenever the appended id is fresh. -/
theorem create_session_preserves_invariants (expireH : Int) (maxS : Nat)
    (st : SessionState) (u t : String) (device : Option DeviceInfo)
    (cur : Bool) (sid : String) (now : Int)
    (hwf : ∀ i s, st.sessions i = some s → s.session_id = i)
    (hnodup : (st.user_sessions u).Nodup)
    (hfresh : sid ∉ st.user_sessions u) :
    (∀ i s,
      (create_session expireH maxS st u t device cur sid now).2.sessions i =
        some s → s.session_id = i) ∧
    ((create_session expireH maxS st u t device cur sid
        now).2.user_sessions u = st.user_sessions u ++ [sid]) ∧
    ((create_session expireH maxS st u t device cur sid
        now).2.user_sessions u).Nodup := by
  have hs : ∃ ns : SessionInfo,
      (create_session expireH maxS st u t device cur sid now).2 =
        enforce_session_limit maxS
          ⟨fun v => if v = sid then some ns else st.sessions v,
           fun v => if v = u then st.user_sessions u ++ [sid]
             else st.user_sessions v⟩ u now ∧
      ns.session_id = sid := by
    cases device with
    | none => exact ⟨_, rfl, rfl⟩
    | some d => exact ⟨_, rfl, rfl⟩
  obtain ⟨ns, hcs, hnsid⟩ := hs
  have hwf1 : ∀ i s,
      (⟨fun v => if v = sid then some ns else st.sessions v,
        fun v => if v = u then st.user_sessions u ++ [sid]
          else st.user_sessions v⟩ : SessionState).sessions i = some s →
      s.session_id = i := by
    intro i s hi
    have hi' : (if i = sid then some ns else st.sessions i) = some s := hi
    by_cases hisid : i = sid
    · rw [if_pos hisid] at hi'
      cases hi'
      rw [hnsid, hisid]
    · rw [if_neg hisid] at hi'
      exact hwf i s hi'
  have hnd0 : (st.user_sessions u ++ [sid]).Nodup := by
    refine List.Nodup.append hnodup (List.nodup_singleton sid) ?_
    intro a ha hb
    simp only [List.mem_singleton] at hb
    subst hb
    exact hfresh ha
  have hnd1 : ((⟨fun v => if v = sid then some ns else st.sessions v,
      fun v => if v = u then st.user_sessions u ++ [sid]
        else st.user_sessions v⟩ : SessionState).user_sessions u).Nodup := by
    show (if u = u then st.user_sessions u ++ [sid]
      else st.user_sessions u).Nodup
    rw [if_pos rfl]
    exact hnd0
  have H := enforce_session_limit_preserves_wf maxS
    ⟨fun v => if v = sid then some ns else st.sessions v,
     fun v => if v = u then st.user_sessions u ++ [sid]
       else st.user_sessions v⟩ u now hwf1 hnd1
  rw [hcs]
  refine ⟨H.1, ?_, ?_⟩
  · rw [H.2]
    show (if u = u then st.user_sessions u ++ [sid]
      else st.user_sessions u) = st.user_sessions u ++ [sid]
    rw [if_pos rfl]
  · rw [H.2]
    show (if u = u then st.user_sessions u ++ [sid]
      else st.user_sessions u).Nodup
    rw [if_pos rfl]
    exact hnd0

/-- C3: `create_session` leaves at most `max_sessions_per_user` active
sessions for the user; every session that was active and ends inactive in
the same call carries `invalidation_reason = "session_limit_exceeded"`
and was least-recently-active relative to every surviving active session
of that user.  The hypotheses say the state is well-formed (sessions are
stored under their own id, the user's id list has no duplicates) and the
generated session id is fresh. -/
theorem create_session_enforces_limit (expireH : Int) (maxS : Nat)
    (st : SessionState) (u t : String) (device : Option DeviceInfo)
    (cur : Bool) (sid : String) (now : Int)
    (hwf : ∀ i s, st.sessions i = some s → s.session_id = i)
    (hnodup : (st.user_sessions u).Nodup)
    (hfresh : sid ∉ st.user_sessions u) :
    (activeSessionsOf
        (create_session expireH maxS st u t device cur sid now).2 u).length ≤
      maxS ∧
    (∀ i s1 s', st.sessions i = some s1 → s1.is_active = true →
      (create_session expireH maxS st u t device cur sid now).2.sessions i =
        some s' →
      s'.is_active = false →
      s'.invalidation_reason = some "session_limit_exceeded" ∧
      (∀ j s2,
        (create_session expireH maxS st u t device cur sid now).2.sessions
            j = some s2 →
        j ∈ (create_session expireH maxS st u t device cur sid
            now).2.user_sessions u →
        s2.is_active = true →
        s'.last_activity_at ≤ s2.last_activity_at)) := by
  have hs : ∃ ns : SessionInfo,
      (create_session expireH maxS st u t device cur sid now).2 =
        enforce_session_limit maxS
          ⟨fun v => if v = sid then some ns else st.sessions v,
           fun v => if v = u then st.user_sessions u ++ [sid]
             else st.user_sessions v⟩ u now ∧
      ns.session_id = sid ∧ ns.is_active = true := by
    cases device with
    | none => exact ⟨_, rfl, rfl, rfl⟩
    | some d => exact ⟨_, rfl, rfl, rfl⟩
  obtain ⟨ns, hcs, hnsid, hnsact⟩ := hs
  have hwf1 : ∀ i s,
      (⟨fun v => if v = sid then some ns else st.sessions v,
        fun v => if v = u then st.user_sessions u ++ [sid]
          else st.user_sessions v⟩ : SessionState).sessions i = some s →
      s.session_id = i := by
    intro i s hi
    have hi' : (if i = sid then some ns else st.sessions i) = some s := hi
    by_cases hisid : i = sid
    · rw [if_pos hisid] at hi'
      cases hi'
      rw [hnsid, hisid]
    · rw [if_neg hisid] at hi'
      exact hwf i s hi'
  have hnd1 : ((⟨fun v => if v = sid then some ns else st.sessions v,
      fun v => if v = u then st.user_sessions u ++ [sid]
        else st.user_sessions v⟩ : SessionState).user_sessions u).Nodup := by
    show (if u = u then st.user_sessions u ++ [sid]
      else st.user_sessions u).Nodup
    rw [if_pos rfl]
    refine List.Nodup.append hnodup (List.nodup_singleton sid) ?_
    intro a ha hb
    simp only [List.mem_singleton] at hb
    subst hb
    exact hfresh ha
  have H := enforce_session_limit_spec maxS
    ⟨fun v => if v = sid then some ns else st.sessions v,
     fun v => if v = u then st.user_sessions u ++ [sid]
       else st.user_sessions v⟩ u now hwf1 hnd1
  rw [hcs]
  refine ⟨H.1, ?_⟩
  intro i s1 s' h1 ha h2 hia
  by_cases hisid : i = sid
  · subst hisid
    exact H.2.2 i ns s'
      (show (if i = i then some ns else st.sessions i) = some ns by
        rw [if_pos rfl]) hnsact h2 hia
  · exact H.2.2 i s1 s'
      (show (if i = sid then some ns else st.sessions i) = some s1 by
        rw [if_neg hisid]; exact h1) ha h2 hia

/-- Closed instance of C3 from the empty registry. -/
theorem create_session_enforces_limit_witness :
    (activeSessionsOf
        (create_session 168 10 ⟨fun _ => none, fun _ => []⟩ "u1" "t1" none
          true "sid1" 0).2 "u1").length ≤ 10 :=
  (create_session_enforces_limit 168 10 ⟨fun _ => none, fun _ => []⟩
    "u1" "t1" none true "sid1" 0 (fun i s h => nomatch h) List.nodup_nil
    (List.not_mem_nil "sid1")).1

/-- `rl_limits` at `"login"`. -/
theorem rl_limits_login : rl_limits "login" = some (5, 900, 3600) := rfl

/-- Key normalization for the `"login"` limit type. -/
theorem login_key_eq (x : String) : "login" ++ ":" ++ x = "login:" ++ x :=
  rfl

/-- A non-success `record_attempt` increments the stored attempt count and
keeps `first_attempt` and `blocked_until` unchanged. -/
theorem record_attempt_fail_limits (st : RLState) (idf lt : String)
    (maxA : Nat) (window blockS : Int) (now : Int)
    (hlt : rl_limits lt = some (maxA, window, blockS)) :
    (record_attempt st idf lt false now).1 =
      (maxA : Int) -
        ((((st.limits (lt ++ ":" ++ idf)).getD (0, now, none)).1 + 1 : Nat) :
          Int) ∧
    (record_attempt st idf lt false now).2.limits (lt ++ ":" ++ idf) =
      some (((st.limits (lt ++ ":" ++ idf)).getD (0, now, none)).1 + 1,
            ((st.limits (lt ++ ":" ++ idf)).getD (0, now, none)).2.1,
            ((st.limits (lt ++ ":" ++ idf)).getD (0, now, none)).2.2) := by
  constructor
  · simp [record_attempt, hlt]
  · simp [record_attempt, hlt, RLState.setRec]

/-- C9 counterexample: identifier `X` has a `login` record of 3 attempts
with `window_start = 0`; a failed `record_attempt` at `now = 1000` —
after the 900-second window has elapsed — yields `(4, 0, none)`, not the
fresh-window record `(1, 1000, none)` the claim requires. -/
theorem record_attempt_no_window_reset :
    (1000 : Int) - 0 > 900 ∧
    ((record_attempt ⟨fun v => if v = "login:X" then some (3, 0, none)
        else none⟩ "X" "login" false 1000).2.limits "login:X" =
      some (4, 0, none)) ∧
    ¬ ((record_attempt ⟨fun v => if v = "login:X" then some (3, 0, none)
        else none⟩ "X" "login" false 1000).2.limits "login:X" =
      some (1, 1000, none)) := by
  refine ⟨by decide, by decide, by decide⟩

/-- C9 amended: a non-success `record_attempt` increments the attempt
count on the existing record and keeps `window_start` and any block
unchanged — even when the prior window has elapsed; it never starts a
fresh window (window-expiry reset happens only in `check_rate_limit`).
On a missing key it creates `(0, now, none)` and then increments. -/
theorem record_attempt_fail_increments (st : RLState) (idf lt : String)
    (maxA : Nat) (window blockS : Int) (now : Int) (a : Nat) (w : Int)
    (b : Option Int)
    (hlt : rl_limits lt = some (maxA, window, blockS)) :
    (st.limits (lt ++ ":" ++ idf) = some (a, w, b) →
      record_attempt st idf lt false now =
        ((maxA : Int) - ((a + 1 : Nat) : Int),
         (st.setRec (lt ++ ":" ++ idf) (a, w, b)).setRec
           (lt ++ ":" ++ idf) (a + 1, w, b))) ∧
    (st.limits (lt ++ ":" ++ idf) = none →
      record_attempt st idf lt false now =
        ((maxA : Int) - ((1 : Nat) : Int),
         (st.setRec (lt ++ ":" ++ idf) (0, now, none)).setRec
           (lt ++ ":" ++ idf) (1, now, none))) := by
  constructor
  · intro h
    simp [record_attempt, hlt, h]
  · intro h
    simp [record_attempt, hlt, h]

/-- Closed instance of the amended C9: the counterexample state, evaluated
through the amended description. -/
theorem record_attempt_fail_increments_witness :
    (record_attempt ⟨fun v => if v = "login:X" then some (3, 0, none)
        else none⟩ "X" "login" false 1000).2.limits "login:X" =
      some (4, 0, none) := by
  have h := (record_attempt_fail_increments
    ⟨fun v => if v = "login:X" then some (3, 0, none) else none⟩
    "X" "login" 5 900 3600 1000 3 0 none rfl).1 (by decide)
  rw [h]
  decide

/-- C8: for the `login` limit type: five (= `max_attempts`) failed
attempts recorded for identifier `x` within one window make the next
`check_rate_limit` raise `RateLimitExceeded` with `retry_after =
block_seconds = 3600`, installing the block in the same call; a
subsequent successful `record_attempt` resets the counter to zero and
clears the block, so the next check succeeds with all 5 attempts
remaining. -/
theorem login_rate_limit_block_and_reset (st : RLState) (x : String)
    (t1 t2 t3 t4 t5 tc t6 t7 : Int)
    (hfresh : st.limits ("login:" ++ x) = none)
    (hwin : tc - t1 ≤ 900) :
    (check_rate_limit
        (record_attempt (record_attempt (record_attempt (record_attempt
          (record_attempt st x "login" false t1).2
          x "login" false t2).2 x "login" false t3).2
          x "login" false t4).2 x "login" false t5).2
        x "login" tc).1 = .error 3600 ∧
    (check_rate_limit
        (record_attempt (record_attempt (record_attempt (record_attempt
          (record_attempt st x "login" false t1).2
          x "login" false t2).2 x "login" false t3).2
          x "login" false t4).2 x "login" false t5).2
        x "login" tc).2.limits ("login:" ++ x) =
      some (5, t1, some (tc + 3600)) ∧
    (record_attempt
        (check_rate_limit
          (record_attempt (record_attempt (record_attempt (record_attempt
            (record_attempt st x "login" false t1).2
            x "login" false t2).2 x "login" false t3).2
            x "login" false t4).2 x "login" false t5).2
          x "login" tc).2 x "login" true t6).1 = 5 ∧
    (record_attempt
        (check_rate_limit
          (record_attempt (record_attempt (record_attempt (record_attempt
            (record_attempt st x "login" false t1).2
            x "login" false t2).2 x "login" false t3).2
            x "login" false t4).2 x "login" false t5).2
          x "login" tc).2 x "login" true t6).2.limits ("login:" ++ x) =
      some (0, t6, none) ∧
    (check_rate_limit
        (record_attempt
          (check_rate_limit
            (record_attempt (record_attempt (record_attempt (record_attempt
              (record_attempt st x "login" false t1).2
              x "login" false t2).2 x "login" false t3).2
              x "login" false t4).2 x "login" false t5).2
            x "login" tc).2 x "login" true t6).2
        x "login" t7).1 = .ok (true, 5) := by
  have hkey := login_key_eq x
  set s1 := (record_attempt st x "login" false t1).2 with hs1
  set s2 := (record_attempt s1 x "login" false t2).2 with hs2
  set s3 := (record_attempt s2 x "login" false t3).2 with hs3
  set s4 := (record_attempt s3 x "login" false t4).2 with hs4
  set s5 := (record_attempt s4 x "login" false t5).2 with hs5
  have h1 : s1.limits ("login:" ++ x) = some (1, t1, none) := by
    have h := (record_attempt_fail_limits st x "login" 5 900 3600 t1 rfl).2
    rw [hkey, hfresh] at h
    simpa using h
  have h2 : s2.limits ("login:" ++ x) = some (2, t1, none) := by
    have h := (record_attempt_fail_limits s1 x "login" 5 900 3600 t2 rfl).2
    rw [hkey, h1] at h
    simpa using h
  have h3 : s3.limits ("login:" ++ x) = some (3, t1, none) := by
    have h := (record_attempt_fail_limits s2 x "login" 5 900 3600 t3 rfl).2
    rw [hkey, h2] at h
    simpa using h
  have h4 : s4.limits ("login:" ++ x) = some (4, t1, none) := by
    have h := (record_attempt_fail_limits s3 x "login" 5 900 3600 t4 rfl).2
    rw [hkey, h3] at h
    simpa using h
  have h5 : s5.limits ("login:" ++ x) = some (5, t1, none) := by
    have h := (record_attempt_fail_limits s4 x "login" 5 900 3600 t5 rfl).2
    rw [hkey, h4] at h
    simpa using h
  -- the blocking check
  have hnores : ¬ (900 < tc - t1) := by omega
  have hc : check_rate_limit s5 x "login" tc =
      (.error 3600,
       (s5.setRec ("login:" ++ x) (5, t1, none)).setRec ("login:" ++ x)
         (5, t1, some (tc + 3600))) := by
    simp only [check_rate_limit, rl_limits_login, hkey, h5,
      Option.getD_some, decide_eq_true_eq, hnores, if_false]
    norm_num
  have hc2 : (check_rate_limit s5 x "login" tc).2.limits ("login:" ++ x) =
      some (5, t1, some (tc + 3600)) := by
    rw [hc]
    simp [RLState.setRec]
  have hrec : record_attempt (check_rate_limit s5 x "login" tc).2
      x "login" true t6 =
      ((5 : Int),
       (((check_rate_limit s5 x "login" tc).2.setRec ("login:" ++ x)
           (5, t1, some (tc + 3600))).setRec ("login:" ++ x)
         (0, t6, none))) := by
    simp [record_attempt, rl_limits_login, hkey, hc2]
  refine ⟨by rw [hc], hc2, by rw [hrec], ?_, ?_⟩
  · rw [hrec]
    simp [RLState.setRec]
  · set s6 := (record_attempt (check_rate_limit s5 x "login" tc).2
      x "login" true t6).2 with hs6
    have h6 : s6.limits ("login:" ++ x) = some (0, t6, none) := by
      rw [hs6, hrec]
      simp [RLState.setRec]
    by_cases hr : 900 < t7 - t6
    · simp only [check_rate_limit, rl_limits_login, hkey, h6,
        Option.getD_some, decide_eq_true_eq, hr, if_true]
      norm_num
    · simp only [check_rate_limit, rl_limits_login, hkey, h6,
        Option.getD_some, decide_eq_true_eq, hr, if_false]
      norm_num

/-- Closed instance of C8 from the empty limiter state. -/
theorem login_rate_limit_block_and_reset_witness :
    ((⟨fun _ => none⟩ : RLState).limits ("login:" ++ "ip1") = none) ∧
    ((10 : Int) - 1 ≤ 900) ∧
    (check_rate_limit (record_attempt (record_attempt (record_attempt
        (record_attempt (record_attempt ⟨fun _ => none⟩ "ip1" "login" false
          1).2 "ip1" "login" false 2).2 "ip1" "login" false 3).2
        "ip1" "login" false 4).2 "ip1" "login" false 5).2
      "ip1" "login" 10).1 = .error 3600 := by
  have h := login_rate_limit_block_and_reset ⟨fun _ => none⟩ "ip1"
    1 2 3 4 5 10 20 30 (by decide) (by decide)
  exact ⟨by decide, by decide, h.1⟩

/-- Closed instance of C1 at a concrete configuration and clock. -/
theorem verify_create_access_token_roundtrip_witness :
    (5 : Int) < 0 + ({ secret_key := "k" } : JWTConfig).access_token_expire_minutes * 60 ∧
    ∃ c, verify_token { secret_key := "k" }
        (create_access_token { secret_key := "k" } "u1" "t1" (some "a@b.c")
          ["admin"] ["read:documents"] 0) 5 = .ok c ∧
      c.sub = "u1" ∧ c.tenant_id = "t1" ∧ c.email = some "a@b.c" ∧
      c.roles = ["admin"] ∧ c.permissions = ["read:documents"] ∧
      c.token_type = "access" :=
  ⟨by decide,
   verify_create_access_token_roundtrip { secret_key := "k" } "u1" "t1"
     (some "a@b.c") ["admin"] ["read:documents"] 0 5 (by decide)⟩

end LlmApp
